import Mathlib

/-!
Verification of the Philips AirPurifier Home Assistant integration
(custom_components/philips_airpurifier) against its natural-language
specification.

The Python sources under src/ are shallowly embedded: Python dicts become
association lists over a `PyVal` value type (heterogeneous values: strings,
integers, booleans, nested dicts and lists, None), async functions become
pure functions parameterised over the outcome of their awaited effects, and
exceptions become `Except`/`Option` results.  Components of the repository
that are not present under src/ (the Coordinator / StatusCache in
coordinator.py) are modelled from the specification; their doc comments say
so explicitly.
-/

/-- A Python value as it occurs in device status dictionaries and in the
diagnostics output: `None`, a string, an integer, a boolean, a dict
(association list preserving insertion order, keys unique) or a list. -/
inductive PyVal where
  | pyNone : PyVal
  | str (s : String) : PyVal
  | int (n : Int) : PyVal
  | bool (b : Bool) : PyVal
  | dict (entries : List (String × PyVal)) : PyVal
  | list (items : List PyVal) : PyVal

/-- A Python dict with string keys, as an insertion-ordered association list
with unique keys (Python dicts preserve insertion order and keep one entry
per key). -/
abbrev StatusMap := List (String × PyVal)

/-- `m[k]` lookup on a Python dict (first match; keys are unique). -/
def lookupAssoc {α : Type} (m : List (String × α)) (k : String) : Option α :=
  match m with
  | [] => none
  | kv :: rest => if kv.1 = k then some kv.2 else lookupAssoc rest k

/-- `m[k] = v` assignment on a Python dict: replaces the value in place if
the key is present, otherwise appends the new entry at the end (Python
insertion-order semantics). -/
def setAssoc {α : Type} (m : List (String × α)) (k : String) (v : α) :
    List (String × α) :=
  match m with
  | [] => [(k, v)]
  | kv :: rest =>
    if kv.1 = k then (kv.1, v) :: rest else kv :: setAssoc rest k v

/-- `m.pop(k)` / `del m[k]` on a Python dict: removes the entry for `k`.
Since dict keys are unique, removing every matching entry is the same as
removing the one entry. -/
def removeAssoc {α : Type} (m : List (String × α)) (k : String) :
    List (String × α) :=
  match m with
  | [] => []
  | kv :: rest =>
    if kv.1 = k then removeAssoc rest k else kv :: removeAssoc rest k

/-- `k in m` on a Python dict. -/
def containsKey {α : Type} (m : List (String × α)) (k : String) : Bool :=
  (lookupAssoc m k).isSome

/-- `m.get(k, d)` on a Python dict. -/
def getDefault {α : Type} (m : List (String × α)) (k : String) (d : α) : α :=
  (lookupAssoc m k).getD d

/-! ## Redaction (Home Assistant diagnostics helper)

`homeassistant.components.diagnostics.async_redact_data` walks a nested
structure; inside every dict, an entry whose key is in the redaction set has
its value replaced by the marker `**REDACTED**` (unless the value is `None`
or the empty string, which are kept as-is); other dict or list values are
redacted recursively; scalar values are kept. -/

/-- The redaction marker value used by Home Assistant. -/
def REDACTED : PyVal := .str "**REDACTED**"

/-- The set of dictionary keys redacted from diagnostics output,
from src/custom_components/philips_airpurifier/diagnostics.py. -/
def TO_REDACT : List String :=
  ["device_id", "DeviceId", "device_serial", "serial_number", "mac",
   "ip_address", "host", "ssid", "wifi_ssid", "network_name", "bssid",
   "wifi_password", "password", "token", "api_key", "unique_id", "id",
   "entry_id", "config_entry_id"]

/-- The redaction helper's skip test: `value is None` or
`isinstance(value, str) and not value`. -/
def isNoneOrEmpty : PyVal → Bool
  | .pyNone => true
  | .str s => s = ""
  | _ => false

mutual

/-- Embedding of Home Assistant's `async_redact_data` on a single value. -/
def redact (t : List String) : PyVal → PyVal
  | .dict es => .dict (redactEntries t es)
  | .list vs => .list (redactItems t vs)
  | v => v

/-- `async_redact_data` on the entries of a dict. -/
def redactEntries (t : List String) :
    List (String × PyVal) → List (String × PyVal)
  | [] => []
  | kv :: rest =>
    (if isNoneOrEmpty kv.2 then kv
     else if kv.1 ∈ t then (kv.1, REDACTED)
     else (kv.1, redact t kv.2)) :: redactEntries t rest

/-- `async_redact_data` on the items of a list. -/
def redactItems (t : List String) : List PyVal → List PyVal
  | [] => []
  | v :: rest => redact t v :: redactItems t rest

end

/-- A value acceptable under a redacted key: the redaction marker, `None`,
or the empty string (the latter two are deliberately kept by the helper). -/
def isProperlyRedacted : PyVal → Bool
  | .pyNone => true
  | .str s => s = "**REDACTED**" || s = ""
  | _ => false

mutual

/-- Redaction soundness predicate on a value: inside every dict, every entry
whose key is in `t` holds the redaction marker (or `None` / the empty
string, which the redaction helper deliberately keeps). -/
def redactedOk (t : List String) : PyVal → Bool
  | .dict es => entriesOk t es
  | .list vs => itemsOk t vs
  | _ => true

/-- Redaction soundness on dict entries. -/
def entriesOk (t : List String) : List (String × PyVal) → Bool
  | [] => true
  | kv :: rest =>
    (if kv.1 ∈ t then isProperlyRedacted kv.2 else redactedOk t kv.2) &&
      entriesOk t rest

/-- Redaction soundness on list items. -/
def itemsOk (t : List String) : List PyVal → Bool
  | [] => true
  | v :: rest => redactedOk t v && itemsOk t rest

end


/-! ## StatusCache and Coordinator cache operations

The Coordinator and its StatusCache live in coordinator.py, which is not
among the given sources; they are modelled from the specification
(spec.md sections 3, 4.1, 4.2). -/

/-- Modelled from the spec: the StatusCache is "an in-memory,
mutation-serialized mapping from field key (string) to value"; a delta "is a
partial mapping", so both are partial maps from keys to values
(coordinator.py is not among the given sources). -/
def StatusCache : Type := String → Option PyVal

/-- Modelled from the spec: "merge = union with right-bias (new values win)
on matching keys, keys absent from the delta are untouched"
(coordinator.py is not among the given sources). -/
def StatusCache.merge (c d : StatusCache) : StatusCache :=
  fun k => match d k with
    | some v => some v
    | none => c k

/-- View a concrete status dictionary as a partial mapping. -/
def StatusCache.ofList (l : StatusMap) : StatusCache :=
  fun k => lookupAssoc l k

/-- Modelled from the spec: the operations that touch the Coordinator's
cache over its lifetime — merging an observed delta (section 4.1 OBSERVING),
the optimistic single-key update of a control write (section 4.1
set_control_value), and a reconnection, during which "the cache is retained
as-is" (section 4.1 RECONNECTING); coordinator.py is not among the given
sources. -/
inductive CoordOp where
  | mergeDelta (d : StatusMap) : CoordOp
  | setControl (k : String) (v : PyVal) : CoordOp
  | reconnect : CoordOp

/-- Modelled from the spec: the effect of one Coordinator operation on the
cache (coordinator.py is not among the given sources). -/
def applyOp (c : StatusCache) : CoordOp → StatusCache
  | .mergeDelta d => c.merge (StatusCache.ofList d)
  | .setControl k v => fun k' => if k' = k then some v else c k'
  | .reconnect => c

/-- The cache after a sequence of Coordinator operations. -/
def applyOps (c : StatusCache) : List CoordOp → StatusCache
  | [] => c
  | op :: rest => applyOps (applyOp c op) rest

/-! ## PhilipsSelect.async_select_option (select.py)

The write path of the select entity.  `self._options` maps a device value
(`option_key`) to a user-facing option label; `self._device_status` is the
Coordinator's cached status dictionary.  The network write
`await self.coordinator.client.set_control_value(...)` either succeeds or
raises; the surrounding `try` catches only `KeyError` and `ValueError`, so
a connection error propagates to the caller. -/

/-- Outcome of the awaited network write
`coordinator.client.set_control_value`. -/
inductive WriteOutcome where
  | success : WriteOutcome
  | failure : WriteOutcome
deriving DecidableEq

/-- An observable event of the write path, used to state ordering claims:
a network write issued to the device, or a write into the local cached
status dictionary. -/
inductive SelectEvent where
  | netWrite (k v : String) : SelectEvent
  | cacheWrite (k v : String) : SelectEvent
deriving DecidableEq

/-- Result of `async_select_option`: the cached status afterwards, the
ordered trace of events, and whether an exception propagated out. -/
structure SelectResult where
  status : StatusMap
  events : List SelectEvent
  raised : Bool

/-- Embedding of `PhilipsSelect.async_select_option` (select.py lines
165-188).  `options` is `self._options` as an association list from device
value to option label, `kind` is `self.kind`, `status` is
`self._device_status`.  An empty option returns early; an option label not
found in `self._options` makes the `next(...)` generator raise
(`StopIteration`, caught by neither `except` clause); otherwise the network
write is awaited first and, only after it returns, the cached status entry
is assigned.  A failing network write raises past the cache assignment. -/
def async_select_option (options : List (String × String)) (kind : String)
    (status : StatusMap) (option : String) (w : WriteOutcome) : SelectResult :=
  if option = "" then ⟨status, [], false⟩
  else
    match options.find? (fun kv => kv.2 = option) with
    | none => ⟨status, [], true⟩
    | some kv =>
      match w with
      | .success =>
        ⟨setAssoc status kind (.str kv.1),
         [.netWrite kind kv.1, .cacheWrite kind kv.1], false⟩
      | .failure => ⟨status, [.netWrite kind kv.1], true⟩

/-! ## async_setup_entry (__init__.py)

`async_setup_entry` awaits `asyncio.wait_for(CoAPClient.create(host),
timeout=25)` inside a `try`; any exception (failure or timeout) is turned
into `ConfigEntryNotReady`, raised before anything is stored in
`hass.data`.  With a client, the function builds the Coordinator: if the
config entry carries no persisted status snapshot (`CONF_STATUS` missing)
it constructs the Coordinator without one, awaits
`coordinator.async_first_refresh()`, reads `coordinator.status` and writes
it back into the entry's stored data; otherwise it constructs the
Coordinator pre-populated with the persisted snapshot and performs no
refresh.  Either way it then stores a `ConfigEntryData` under the entry id
in `hass.data[DOMAIN]`. -/

/-- Outcome of the awaited
`asyncio.wait_for(CoAPClient.create(host), timeout=25)`: a session, or a
failure/timeout (any exception). -/
inductive ConnectOutcome where
  | connected : ConnectOutcome
  | connectFailed : ConnectOutcome
deriving DecidableEq

/-- The environment of awaited effects of one `async_setup_entry` run: the
outcome of the initial connect, whether the (only needed on the no-snapshot
path) `async_first_refresh` succeeds, and the status it fetches when it
does. -/
structure SetupEnv where
  connect : ConnectOutcome
  refreshOk : Bool
  fetched : StatusMap

/-- The fields of a config entry read and written by `async_setup_entry`:
`entry.data[CONF_HOST] / [CONF_MODEL] / [CONF_NAME] / [CONF_DEVICE_ID]` and
the optional persisted snapshot `entry.data[CONF_STATUS]`. -/
structure ConfigEntry where
  host : String
  model : String
  name : String
  device_id : String
  data_status : Option StatusMap

/-- Modelled from the spec (coordinator.py is not among the given sources):
the Coordinator state visible to setup — the snapshot it was constructed
with ("optionally a previously-persisted status snapshot used to
pre-populate the cache") and its current status, which `first_refresh()`
replaces with the first live read. -/
structure CoordinatorModel where
  initialSnapshot : Option StatusMap
  status : StatusMap

/-- Modelled from the spec: `Coordinator(hass, client, host, status)`
pre-populates the cache with the given snapshot, or starts empty without
one (coordinator.py is not among the given sources). -/
def Coordinator.new (snapshot : Option StatusMap) : CoordinatorModel :=
  { initialSnapshot := snapshot, status := snapshot.getD [] }

/-- Modelled from the spec: a successful `first_refresh()` performs the
initial read, after which the Coordinator's status is the fetched snapshot
(coordinator.py is not among the given sources). -/
def Coordinator.firstRefresh (c : CoordinatorModel) (fetched : StatusMap) :
    CoordinatorModel :=
  { c with status := fetched }

/-- The per-entry aggregate stored in `hass.data[DOMAIN][entry.entry_id]`
(config_entry_data.py): the Coordinator, the status snapshot at setup time
and the connection handle. -/
structure ConfigEntryData where
  coordinator : CoordinatorModel
  latest_status : StatusMap
  clientPresent : Bool

/-- The errors `async_setup_entry` can raise: `ConfigEntryNotReady` from
the initial connect, or any other exception propagating out of the rest of
the body (in particular a failing `async_first_refresh`). -/
inductive SetupError where
  | configEntryNotReady : SetupError
  | otherError : SetupError
deriving DecidableEq

/-- Successful result of `async_setup_entry`: the (possibly updated) config
entry, the stored `ConfigEntryData`, whether a blocking first refresh was
performed, and the updated `hass.data[DOMAIN]` registry. -/
structure SetupOk where
  entry : ConfigEntry
  stored : ConfigEntryData
  firstRefreshPerformed : Bool
  hassData : List (String × ConfigEntryData)

/-- Embedding of `async_setup_entry` (__init__.py lines 143-215).  An
`Except.error` carries the `hass.data[DOMAIN]` registry as it stood when
the exception was raised (the raise aborts the function, so nothing after
it runs). -/
def async_setup_entry (env : SetupEnv) (entry : ConfigEntry)
    (entryId : String) (hassData : List (String × ConfigEntryData)) :
    Except (SetupError × List (String × ConfigEntryData)) SetupOk :=
  match env.connect with
  | .connectFailed => .error (.configEntryNotReady, hassData)
  | .connected =>
    match entry.data_status with
    | none =>
      if env.refreshOk then
        let coordinator :=
          Coordinator.firstRefresh (Coordinator.new none) env.fetched
        let status := coordinator.status
        let entry' := { entry with data_status := some status }
        let ced : ConfigEntryData :=
          { coordinator := coordinator, latest_status := status,
            clientPresent := true }
        .ok { entry := entry', stored := ced, firstRefreshPerformed := true,
              hassData := setAssoc hassData entryId ced }
      else
        .error (.otherError, hassData)
    | some status =>
      let coordinator := Coordinator.new (some status)
      let ced : ConfigEntryData :=
        { coordinator := coordinator, latest_status := status,
          clientPresent := true }
      .ok { entry := entry, stored := ced, firstRefreshPerformed := false,
            hassData := setAssoc hassData entryId ced }

/-! ## Services (services.py)

The integration registers seven services on the `philips_airpurifier_coap`
domain.  The service registry for this domain is modelled as the list of
registered service names in registration order; Home Assistant's registry
is a dict keyed by service name, so it holds no duplicates.
`hass.services.has_service` is list membership, `async_register` appends,
`async_remove` deletes the entry. -/

/-- The seven service names of services.py (SERVICE_FILTER_RESET ..
SERVICE_RESET_DEVICE). -/
def INTEGRATION_SERVICES : List String :=
  ["filter_reset", "calibrate_sensors", "set_display_brightness",
   "schedule_maintenance", "set_child_lock", "set_timer", "reset_device"]

/-- Embedding of `async_setup_services` (services.py lines 299-327): for
each of the seven services, register it unless `has_service` already
reports it. -/
def async_setup_services (svcs : List String) : List String :=
  INTEGRATION_SERVICES.foldl
    (fun acc s => if acc.contains s then acc else acc ++ [s]) svcs

/-- Embedding of `async_unload_services` (services.py lines 330-345): for
each of the seven services, remove it if `has_service` reports it. -/
def async_unload_services (svcs : List String) : List String :=
  INTEGRATION_SERVICES.foldl
    (fun acc s => if acc.contains s then acc.erase s else acc) svcs

/-! ## async_unload_entry (__init__.py lines 218-238)

Unloading forwards the platform unloads, awaits the Coordinator's
`shutdown()` once, pops the entry from `hass.data[DOMAIN]`, and — only when
no entry remains — unregisters the seven services.  It returns `True`. -/

/-- The Home Assistant state touched by `async_unload_entry`: this
integration's per-entry data registry `hass.data[DOMAIN]` and its service
registry. -/
structure HAState where
  domainData : List (String × ConfigEntryData)
  services : List String

/-- Result of `async_unload_entry`: the state afterwards, the returned
boolean, and the list of entry ids whose Coordinator's `shutdown()` was
awaited (in order). -/
structure UnloadResult where
  state : HAState
  returnValue : Bool
  shutdownCalls : List String

/-- Embedding of `async_unload_entry` (__init__.py lines 218-238).
`hass.data[DOMAIN][entry.entry_id]` raises `KeyError` when the entry is
missing, hence the `Option`. -/
def async_unload_entry (st : HAState) (entryId : String) :
    Option UnloadResult :=
  match lookupAssoc st.domainData entryId with
  | none => none
  | some _ced =>
    let domainData' := removeAssoc st.domainData entryId
    let services' :=
      if domainData'.isEmpty then async_unload_services st.services
      else st.services
    some { state := { domainData := domainData', services := services' },
           returnValue := true, shutdownCalls := [entryId] }

/-! ## PhilipsFilterSensor (sensor.py) and the repairs health check

`PhilipsFilterSensor.native_value` returns `self._percentage` when the
filter's total-capacity key is present in the status, else
`self._time_remaining`.  `_percentage` is `round(100.0 * self._value /
self._total)` with an unguarded division; `_value` and `_total` are raw
`self._device_status[key]` subscripts.  Python raises `KeyError` on a
missing key, `TypeError` when the arithmetic meets a non-numeric value,
and `ZeroDivisionError` when the total is zero.  The exact float rounding
(`round`, banker's rounding on floats) is approximated by rational
arithmetic with round-half-up; no claim here depends on the rounded
value, only on which error branch is taken. -/

/-- The Python exceptions reachable in these code paths. -/
inductive PyErr where
  | keyError : PyErr
  | typeError : PyErr
  | zeroDivisionError : PyErr
deriving DecidableEq

/-- `self._device_status[k]` used as a number: `KeyError` if absent,
`TypeError` if the stored value is not an integer. -/
def getIntItem (st : StatusMap) (k : String) : Except PyErr Int :=
  match lookupAssoc st k with
  | none => .error .keyError
  | some (.int n) => .ok n
  | some _ => .error .typeError

/-- Embedding of `PhilipsFilterSensor._percentage` (sensor.py lines
333-335): `round(100.0 * self._value / self._total)`; evaluates `_value`,
then `_total`, then divides — with no zero guard. -/
def filterPercentage (st : StatusMap) (valueKey totalKey : String) :
    Except PyErr Int :=
  match getIntItem st valueKey with
  | .error e => .error e
  | .ok v =>
    match getIntItem st totalKey with
    | .error e => .error e
    | .ok t =>
      if t = 0 then .error .zeroDivisionError
      else .ok (round ((100 * v : ℚ) / (t : ℚ)))

/-- Embedding of `PhilipsFilterSensor._time_remaining` (sensor.py lines
337-339): `str(round(timedelta(hours=v) / timedelta(hours=1)))`, i.e. the
hour count rendered as a string. -/
def filterTimeRemaining (st : StatusMap) (valueKey : String) :
    Except PyErr PyVal :=
  match getIntItem st valueKey with
  | .error e => .error e
  | .ok v => .ok (.str (toString v))

/-- Embedding of `PhilipsFilterSensor.native_value` (sensor.py lines
202-207): the percentage when the total-capacity key is present in the
status, the remaining time otherwise. -/
def filterNativeValue (st : StatusMap) (valueKey totalKey : String) :
    Except PyErr PyVal :=
  if containsKey st totalKey then
    match filterPercentage st valueKey totalKey with
    | .ok n => .ok (.int n)
    | .error e => .error e
  else filterTimeRemaining st valueKey

/-- The filter key pairs checked by the repairs health check
(repairs.py lines 371-376): (status key, total-capacity key). -/
def healthFilterKeys : List (String × String) :=
  [("fltsts0", "flttotal0"), ("fltsts1", "flttotal1"),
   ("fltsts2", "flttotal2"), ("D05-14", "D05-08")]

/-- Python `v > 0` on a raw status value: integers and booleans compare
numerically, anything else raises `TypeError`. -/
def pyGT0 (v : PyVal) : Except PyErr Bool :=
  match v with
  | .int n => .ok (0 < n)
  | .bool b => .ok (0 < (if b then (1 : Int) else 0))
  | _ => .error .typeError

/-- A raw status value used in Python true division: integers and booleans
coerce to a rational, anything else raises `TypeError`. -/
def pyNum (v : PyVal) : Except PyErr ℚ :=
  match v with
  | .int n => .ok (n : ℚ)
  | .bool b => .ok (if b then 1 else 0)
  | _ => .error .typeError

/-- Embedding of the filter-replacement scan of
`async_check_integration_health` (repairs.py lines 368-386): for each
filter pair whose two keys are both present, `total > 0` is checked first
(raising `TypeError` on non-numeric values); only then is
`(remaining / total) * 100` computed — Python true division, which would
raise `ZeroDivisionError` on a zero divisor — and the scan stops at the
first filter at or below 15 percent. -/
def healthScan (st : StatusMap) : List (String × String) → Except PyErr Bool
  | [] => .ok false
  | kv :: rest =>
    if containsKey st kv.1 && containsKey st kv.2 then
      match lookupAssoc st kv.1, lookupAssoc st kv.2 with
      | some remaining, some total =>
        (match pyGT0 total with
         | .error e => .error e
         | .ok false => healthScan st rest
         | .ok true =>
           match pyNum remaining, pyNum total with
           | .error e, _ => .error e
           | .ok _, .error e => .error e
           | .ok r, .ok t =>
             if t = 0 then .error .zeroDivisionError
             else if r / t * 100 ≤ 15 then .ok true
             else healthScan st rest)
      | _, _ => .error .keyError
    else healthScan st rest

/-- The filter-warning computation of `async_check_integration_health`
over its four filter pairs. -/
def healthFilterWarning (st : StatusMap) : Except PyErr Bool :=
  healthScan st healthFilterKeys

/-! ## Diagnostics (diagnostics.py)

`async_get_config_entry_diagnostics` assembles a nested dictionary from
nine helpers and passes it through the redaction helper.  The helpers read
the config entry, the stored `ConfigEntryData`, introspection attributes of
the Coordinator (`client`, `_timeout`, `_listeners`, `_task`,
`_reconnect_task`, `_timer_disconnected` — coordinator.py internals not
among the given sources, captured here as an opaque runtime snapshot), the
device registry and the entity registry.  The embedding threads the
readable/writable state through and returns it, so that the frame property
"diagnostics mutates nothing" is the statement that the returned state
equals the input state; every Python statement of diagnostics.py writes
only function-local dictionaries.  The only raisable operation is the
`rssi >= ...` comparison on a non-numeric value (`TypeError`). -/

/-- The integration domain string, from const.py (not among the given
sources); the value matches the platform string checked in select.py and no
claim depends on it. -/
def DOMAIN : String := "philips_airpurifier_coap"

/-- The device identity bundle `ConfigEntryData.device_information`
(model.py / config_entry_data.py): host, mac (may be `None`), model, name
and device id as read at setup. -/
structure DeviceInformation where
  host : String
  mac : PyVal
  model : String
  name : String
  device_id : String

/-- Snapshot of the Coordinator attributes that diagnostics.py reads via
`getattr` / direct access (`client`, `_timeout`, `_listeners`, `_task`,
`_reconnect_task`, `_timer_disconnected`); coordinator.py is not among the
given sources, so these are opaque observations. -/
structure CoordinatorRuntime where
  clientPresent : Bool
  clientTypeName : String
  timeoutSetting : PyVal
  listenerCount : Nat
  taskPresent : Bool
  taskDone : Bool
  reconnectTaskPresent : Bool
  reconnectTaskDone : Bool
  hasTimerAttr : Bool
  timerIsRunning : PyVal

/-- The stored per-entry aggregate as diagnostics.py reads it. -/
structure DiagConfigEntryData where
  device_information : DeviceInformation
  coordinator : CoordinatorRuntime
  latest_status : StatusMap

/-- The config entry fields diagnostics.py reads.  A set-up entry always
carries `CONF_HOST`/`CONF_MODEL`/`CONF_NAME`/`CONF_DEVICE_ID`
(`async_setup_entry` subscripts them unconditionally), so those are plain
strings here; the persisted snapshot may be absent. -/
structure DiagEntry where
  entry_id : String
  title : String
  version : Int
  host : String
  model : String
  name : String
  device_id : String
  data_status : Option StatusMap
  options : List (String × PyVal)
  source : String
  stateValue : String

/-- The device registry entry found for the integration, when any. -/
structure DeviceEntryInfo where
  id : String
  manufacturer : PyVal
  modelReg : PyVal
  nameReg : PyVal
  swVersion : PyVal
  hwVersion : PyVal
  connections : PyVal
  identifiers : PyVal
  config_entries : List String

/-- One entity registry entry for this config entry, with the fields
`_get_entity_info` reads. -/
structure EntityInfo where
  entity_id : String
  platform : String
  device_class : PyVal
  entity_category : PyVal
  disabled : Bool
  hidden : Bool
  has_entity_name : Bool
  translation_key : PyVal

/-- Everything `async_get_config_entry_diagnostics` can read (and could, in
principle, write): ambient versions and clock, the config entry, the stored
`ConfigEntryData`, and the registries. -/
structure DiagState where
  haVersion : String
  pythonVersion : String
  nowIso : String
  entry : DiagEntry
  config_entry_data : DiagConfigEntryData
  device_entry : Option DeviceEntryInfo
  entities : List EntityInfo

/-- Python `x == 0` on a status value (`True`/`False` compare as `1`/`0`). -/
def pyEqZero : PyVal → Bool
  | .int n => n = 0
  | .bool b => b = false
  | _ => false

/-- Python `x == True` on an optional status value (`1 == True` holds). -/
def pyEqTrue : Option PyVal → Bool
  | some (.bool b) => b
  | some (.int n) => n = 1
  | _ => false

/-- Python `x == "1"` on an optional status value. -/
def pyEqStrOne : Option PyVal → Bool
  | some (.str s) => s = "1"
  | _ => false

/-- Python `v >= m` on a status value against an integer literal:
integers and booleans compare numerically, anything else raises
`TypeError`. -/
def pyGE (v : PyVal) (m : Int) : Except PyErr Bool :=
  match v with
  | .int n => .ok (m ≤ n)
  | .bool b => .ok (m ≤ (if b then (1 : Int) else 0))
  | _ => .error .typeError

/-- How an f-string renders a status value.  Composite values (dicts,
lists) render with Python `repr` syntax, which no claim inspects; they are
shown schematically. -/
def PyVal.display : PyVal → String
  | .pyNone => "None"
  | .str s => s
  | .int n => toString n
  | .bool b => if b then "True" else "False"
  | .dict _ => "<dict>"
  | .list _ => "<list>"

/-- Embedding of `_get_system_info` (diagnostics.py lines 82-93). -/
def _get_system_info (s : DiagState) : PyVal :=
  .dict [
    ("home_assistant_version", .str s.haVersion),
    ("python_version", .str s.pythonVersion),
    ("integration_version", .str "0.26.0"),
    ("domain", .str DOMAIN),
    ("entry_id", .str s.entry.entry_id),
    ("entry_title", .str s.entry.title),
    ("entry_version", .int s.entry.version),
    ("timestamp", .str s.nowIso)]

/-- Embedding of `_get_integration_info` (diagnostics.py lines 96-120). -/
def _get_integration_info (s : DiagState) : PyVal :=
  let c := s.config_entry_data.coordinator
  let di := s.config_entry_data.device_information
  .dict [
    ("integration_domain", .str DOMAIN),
    ("integration_name", .str "Philips AirPurifier"),
    ("device_model", .str di.model),
    ("device_name", .str di.name),
    ("device_host", .str di.host),
    ("coordinator_status", .dict [
      ("is_connected", .bool c.clientPresent),
      ("timeout_setting", c.timeoutSetting),
      ("has_listeners", .bool (decide (0 < c.listenerCount))),
      ("task_running",
        .bool (if c.taskPresent then c.taskPresent && !c.taskDone
               else false))]),
    ("client_info", .dict [
      ("client_type",
        if c.clientPresent then .str c.clientTypeName else .pyNone),
      ("client_available", .bool c.clientPresent)])]

/-- Embedding of `_get_device_info` (diagnostics.py lines 123-173). -/
def _get_device_info (s : DiagState) : PyVal :=
  let di := s.config_entry_data.device_information
  let status := s.config_entry_data.latest_status
  let base : List (String × PyVal) := [
    ("device_model", .str di.model),
    ("device_name", .str di.name),
    ("device_host", .str di.host),
    ("device_mac", di.mac),
    ("device_id_from_config", .str di.device_id)]
  let withReg :=
    match s.device_entry with
    | none => base
    | some de => base ++ [
        ("device_registry_id", .str de.id),
        ("device_manufacturer", de.manufacturer),
        ("device_model_registry", de.modelReg),
        ("device_name_registry", de.nameReg),
        ("device_sw_version", de.swVersion),
        ("device_hw_version", de.hwVersion),
        ("device_connections", de.connections),
        ("device_identifiers", de.identifiers),
        ("device_config_entries", .list (de.config_entries.map PyVal.str))]
  let withStatus :=
    if status.isEmpty then withReg
    else withReg ++ [
      ("device_status_keys", .list (status.map (fun kv => PyVal.str kv.1))),
      ("device_status_count", .int status.length),
      ("has_error_code", .bool (containsKey status "err")),
      ("error_code_value", getDefault status "err" (.str "N/A")),
      ("has_wifi_version", .bool (containsKey status "WifiVersion")),
      ("wifi_version", getDefault status "WifiVersion" (.str "N/A")),
      ("has_software_version", .bool (containsKey status "swversion")),
      ("software_version", getDefault status "swversion" (.str "N/A")),
      ("has_model_id", .bool (containsKey status "modelid")),
      ("model_id", getDefault status "modelid" (.str "N/A")),
      ("has_product_id", .bool (containsKey status "ProductId")),
      ("product_id", getDefault status "ProductId" (.str "N/A"))]
  .dict withStatus

/-- Embedding of `_get_signal_quality` (diagnostics.py lines 214-223),
applied to the raw `rssi` status value (non-numeric values make the
comparison raise `TypeError`). -/
def _get_signal_quality (rssi : PyVal) : Except PyErr PyVal := do
  if ← pyGE rssi (-50) then .ok (.str "excellent")
  else if ← pyGE rssi (-60) then .ok (.str "good")
  else if ← pyGE rssi (-70) then .ok (.str "fair")
  else .ok (.str "poor")

/-- Embedding of `_get_connectivity_info` (diagnostics.py lines 176-211). -/
def _get_connectivity_info (s : DiagState) : Except PyErr PyVal := do
  let c := s.config_entry_data.coordinator
  let di := s.config_entry_data.device_information
  let status := s.config_entry_data.latest_status
  let base : List (String × PyVal) := [
    ("host", .str di.host),
    ("connection_status",
      .str (if c.clientPresent then "connected" else "disconnected")),
    ("coordinator_available", .bool true),
    ("has_status_data", .bool (!status.isEmpty)),
    ("status_data_age", .str "unknown")]
  let withRssi ←
    match lookupAssoc status "rssi" with
    | some v => do
        let q ← _get_signal_quality v
        pure (base ++ [("signal_strength_dbm", v), ("signal_quality", q)])
    | none => pure base
  let final := withRssi ++
    [("client_status",
      .str (if c.clientPresent then "available" else "unavailable"))]
  .ok (.dict final)

/-- Embedding of `_get_performance_metrics` (diagnostics.py lines
226-241). -/
def _get_performance_metrics (s : DiagState) : PyVal :=
  let c := s.config_entry_data.coordinator
  .dict [
    ("coordinator_listeners", .int c.listenerCount),
    ("update_method", .str (if c.taskPresent then "push" else "unknown")),
    ("reconnect_task_active",
      .bool (if c.reconnectTaskPresent then
               c.reconnectTaskPresent && !c.reconnectTaskDone
             else false)),
    ("timer_disconnected_active",
      if c.hasTimerAttr then c.timerIsRunning else .bool false),
    ("memory_usage", .str "not_tracked"),
    ("api_call_count", .str "not_tracked"),
    ("cache_hit_rate", .str "not_applicable")]

/-- The per-platform entity tally of `_get_entity_info`
(`entity_counts.get(platform, 0) + 1` in registration order). -/
def entityCounts (es : List EntityInfo) : List (String × PyVal) :=
  es.foldl
    (fun acc e =>
      match lookupAssoc acc e.platform with
      | some (.int n) => setAssoc acc e.platform (.int (n + 1))
      | _ => setAssoc acc e.platform (.int 1))
    []

/-- Embedding of `_get_entity_info` (diagnostics.py lines 244-273). -/
def _get_entity_info (s : DiagState) : PyVal :=
  .dict [
    ("total_entities", .int s.entities.length),
    ("entity_counts_by_platform", .dict (entityCounts s.entities)),
    ("entity_details", .list (s.entities.map (fun e =>
      .dict [
        ("entity_id", .str e.entity_id),
        ("platform", .str e.platform),
        ("device_class", e.device_class),
        ("entity_category", e.entity_category),
        ("disabled", .bool e.disabled),
        ("hidden", .bool e.hidden),
        ("has_entity_name", .bool e.has_entity_name),
        ("translation_key", e.translation_key)])))]

/-- Embedding of `_get_configuration_data` (diagnostics.py lines
276-293). -/
def _get_configuration_data (s : DiagState) : PyVal :=
  .dict [
    ("config_entry_data", .dict [
      ("host", .str s.entry.host),
      ("model", .str s.entry.model),
      ("name", .str s.entry.name),
      ("has_device_id", .bool true),
      ("has_status", .bool s.entry.data_status.isSome),
      ("status_keys_count", .int (s.entry.data_status.getD []).length)]),
    ("config_entry_options", .dict s.entry.options),
    ("config_entry_source", .str s.entry.source),
    ("config_entry_state", .str s.entry.stateValue)]

/-- Embedding of `_get_error_tracking` (diagnostics.py lines 296-311). -/
def _get_error_tracking (s : DiagState) : PyVal :=
  let status := s.config_entry_data.latest_status
  let err := getDefault status "err" (.int 0)
  .dict [
    ("device_error_code", err),
    ("device_error_description",
      .str (if pyEqZero err then "Normal Operation"
            else "Error Code: " ++
              (getDefault status "err" (.str "unknown")).display)),
    ("recent_exceptions", .str "not_tracked"),
    ("connection_failures", .str "not_tracked"),
    ("api_timeouts", .str "not_tracked")]

/-- Embedding of `_get_device_status` (diagnostics.py lines 314-358). -/
def _get_device_status (s : DiagState) : PyVal :=
  let status := s.config_entry_data.latest_status
  if status.isEmpty then .dict [("status", .str "no_data_available")]
  else
    .dict [
      ("power_status",
        .str (if pyEqStrOne (lookupAssoc status "pwr") then "on" else "off")),
      ("mode", getDefault status "mode" (.str "unknown")),
      ("fan_speed", getDefault status "om" (.str "unknown")),
      ("air_quality", .dict [
        ("pm25", getDefault status "pm25" (.str "unknown")),
        ("indoor_allergen_index", getDefault status "iaql" (.str "unknown")),
        ("gas_level",
          if containsKey status "gas" then
            getDefault status "gas" (.str "unknown")
          else .str "not_available")]),
      ("environmental", .dict [
        ("temperature", getDefault status "temp" (.str "unknown")),
        ("humidity", getDefault status "rh" (.str "unknown"))]),
      ("filters", .dict (status.filter (fun kv =>
        kv.1.startsWith "flt" || kv.1.startsWith "wick" ||
          kv.1.startsWith "D05"))),
      ("settings", .dict [
        ("child_lock",
          .str (if pyEqTrue (lookupAssoc status "cl") then "on" else "off")),
        ("display_backlight", getDefault status "uil" (.str "unknown")),
        ("preferred_index", getDefault status "ddp" (.str "unknown"))]),
      ("device_info", .dict [
        ("runtime", getDefault status "Runtime" (.str "unknown")),
        ("wifi_version", getDefault status "WifiVersion" (.str "unknown")),
        ("software_version",
          getDefault status "swversion" (.str "unknown")),
        ("model_id", getDefault status "modelid" (.str "unknown")),
        ("product_id", getDefault status "ProductId" (.str "unknown"))])]

/-- Embedding of `async_get_config_entry_diagnostics` (diagnostics.py lines
47-79): assemble the nine sections in order, then redact.  The state is
threaded through and returned so the absence of mutation is a provable
statement; none of the helpers writes to the Coordinator, the status cache,
or the stored `ConfigEntryData`. -/
def async_get_config_entry_diagnostics (s : DiagState) :
    Except PyErr PyVal × DiagState :=
  let result : Except PyErr PyVal :=
    match _get_connectivity_info s with
    | .error e => .error e
    | .ok conn =>
      .ok (redact TO_REDACT (.dict [
        ("system_info", _get_system_info s),
        ("integration_info", _get_integration_info s),
        ("device_info", _get_device_info s),
        ("connectivity_info", conn),
        ("performance_metrics", _get_performance_metrics s),
        ("entity_info", _get_entity_info s),
        ("configuration_data", _get_configuration_data s),
        ("error_tracking", _get_error_tracking s),
        ("device_status", _get_device_status s)]))
  (result, s)


/-- A concrete diagnostics state, parameterised over the device host; every
other field is fixed, so two instances differ only in the host value. -/
def diagStateWithHost (h : String) : DiagState :=
  { haVersion := "2024.6.0", pythonVersion := "3.12.1",
    nowIso := "2026-01-01T00:00:00",
    entry := { entry_id := "entry-1", title := "Purifier", version := 1,
               host := h, model := "AC1234/10", name := "Living Room",
               device_id := "dev-1", data_status := none, options := [],
               source := "user", stateValue := "loaded" },
    config_entry_data :=
      { device_information := { host := h, mac := .pyNone,
                                model := "AC1234/10", name := "Living Room",
                                device_id := "dev-1" },
        coordinator := { clientPresent := true,
                         clientTypeName := "CoAPClient",
                         timeoutSetting := .int 60, listenerCount := 2,
                         taskPresent := true, taskDone := false,
                         reconnectTaskPresent := false,
                         reconnectTaskDone := false, hasTimerAttr := true,
                         timerIsRunning := .bool false },
        latest_status := [] },
    device_entry := none, entities := [] }

/-- Look up one key of one section of a diagnostics result. -/
def diagSection (r : Except PyErr PyVal) (k1 k2 : String) : Option PyVal :=
  match r with
  | .ok (.dict es) =>
    match lookupAssoc es k1 with
    | some (.dict es2) => lookupAssoc es2 k2
    | _ => none
  | _ => none

/-- The value produced by diagnostics at a concrete state. -/
def diagSampleValue : PyVal :=
  match (async_get_config_entry_diagnostics
      (diagStateWithHost "192.168.1.10")).1 with
  | .ok v => v
  | .error _ => .pyNone

/-! ## Theorems -/

theorem lookupAssoc_removeAssoc_self {α : Type} (m : List (String × α))
    (k : String) : lookupAssoc (removeAssoc m k) k = none := by
  induction m with
  | nil => rfl
  | cons kv rest ih =>
    by_cases h : kv.1 = k
    · simpa [removeAssoc, h] using ih
    · simpa [removeAssoc, h, lookupAssoc] using ih

theorem lookupAssoc_removeAssoc_ne {α : Type} (m : List (String × α))
    (k k' : String) (hne : k' ≠ k) :
    lookupAssoc (removeAssoc m k) k' = lookupAssoc m k' := by
  induction m with
  | nil => rfl
  | cons kv rest ih =>
    by_cases h : kv.1 = k
    · have h2 : kv.1 ≠ k' := by rw [h]; exact fun hh => hne hh.symm
      simp [removeAssoc, h, lookupAssoc, h2, ih, Ne.symm hne]
    · by_cases h2 : kv.1 = k'
      · simp [removeAssoc, h, lookupAssoc, h2, hne]
      · simp [removeAssoc, h, lookupAssoc, h2, ih, hne]

theorem isNoneOrEmpty_properly (v : PyVal) (h : isNoneOrEmpty v = true) :
    isProperlyRedacted v = true := by
  cases v <;> simp [isNoneOrEmpty, isProperlyRedacted] at h ⊢
  exact Or.inr h

mutual

theorem redact_redactedOk (t : List String) :
    (v : PyVal) → redactedOk t (redact t v) = true
  | .pyNone => rfl
  | .str _ => rfl
  | .int _ => rfl
  | .bool _ => rfl
  | .dict es => by
    rw [redact, redactedOk]
    exact redactEntries_entriesOk t es
  | .list vs => by
    rw [redact, redactedOk]
    exact redactItems_itemsOk t vs

theorem redactEntries_entriesOk (t : List String) :
    (es : List (String × PyVal)) → entriesOk t (redactEntries t es) = true
  | [] => rfl
  | kv :: rest => by
    by_cases hv : isNoneOrEmpty kv.2 = true
    · by_cases hk : kv.1 ∈ t
      · simp [redactEntries, entriesOk, hv, hk,
          redactEntries_entriesOk t rest, isNoneOrEmpty_properly kv.2 hv]
      · cases kv2 : kv.2 <;>
          simp_all [redactEntries, entriesOk, isNoneOrEmpty, redactedOk,
            redactEntries_entriesOk t rest]
    · by_cases hk : kv.1 ∈ t
      · simp [redactEntries, entriesOk, hv, hk,
          redactEntries_entriesOk t rest, isProperlyRedacted, REDACTED]
      · simp [redactEntries, entriesOk, hv, hk,
          redactEntries_entriesOk t rest, redact_redactedOk t kv.2]

theorem redactItems_itemsOk (t : List String) :
    (vs : List PyVal) → itemsOk t (redactItems t vs) = true
  | [] => rfl
  | v :: rest => by
    rw [redactItems, itemsOk, Bool.and_eq_true]
    exact ⟨redact_redactedOk t v, redactItems_itemsOk t rest⟩

end

theorem applyOp_isSome (c : StatusCache) (op : CoordOp) (k : String)
    (h : (c k).isSome) : ((applyOp c op) k).isSome := by
  cases op with
  | mergeDelta d =>
    simp only [applyOp, StatusCache.merge]
    cases StatusCache.ofList d k <;> simp [h]
  | setControl k' v =>
    simp only [applyOp]
    by_cases hk : k = k' <;> simp [hk, h]
  | reconnect => exact h

theorem setup_fold_mem (l : List String) :
    ∀ (svcs : List String) (s : String), s ∈ svcs →
      s ∈ l.foldl (fun acc x => if acc.contains x then acc else acc ++ [x])
        svcs := by
  induction l with
  | nil => intro _ _ h; exact h
  | cons x rest ih =>
    intro svcs s h
    simp only [List.foldl_cons]
    by_cases hx : svcs.contains x
    · rw [if_pos hx]; exact ih svcs s h
    · rw [if_neg hx]
      exact ih _ s (List.mem_append_left _ h)

theorem setup_fold_mem_of (l : List String) :
    ∀ (svcs : List String) (s : String), s ∈ l →
      s ∈ l.foldl (fun acc x => if acc.contains x then acc else acc ++ [x])
        svcs := by
  induction l with
  | nil => intro _ _ h; cases h
  | cons x rest ih =>
    intro svcs s h
    simp only [List.foldl_cons]
    rcases List.mem_cons.mp h with hx | hm
    · subst hx
      by_cases hc : svcs.contains s
      · rw [if_pos hc]
        exact setup_fold_mem rest svcs s (by simpa using hc)
      · rw [if_neg hc]
        exact setup_fold_mem rest _ s (by simp)
    · by_cases hc : svcs.contains x
      · rw [if_pos hc]; exact ih svcs s hm
      · rw [if_neg hc]; exact ih _ s hm

/-- Each of the seven services is registered after `async_setup_services`. -/
theorem setup_mem (svcs : List String) (s : String)
    (h : s ∈ INTEGRATION_SERVICES) : s ∈ async_setup_services svcs :=
  setup_fold_mem_of INTEGRATION_SERVICES svcs s h

theorem setup_fold_fixed (l : List String) (svcs : List String)
    (h : ∀ s ∈ l, svcs.contains s) :
    l.foldl (fun acc x => if acc.contains x then acc else acc ++ [x]) svcs =
      svcs := by
  induction l with
  | nil => rfl
  | cons x rest ih =>
    simp only [List.foldl_cons, if_pos (h x (by simp))]
    exact ih (fun s hs => h s (by simp [hs]))

/-- Running service setup twice yields the same registry as running it
once. -/
theorem setup_setup (svcs : List String) :
    async_setup_services (async_setup_services svcs) =
      async_setup_services svcs := by
  have h : ∀ s ∈ INTEGRATION_SERVICES,
      (async_setup_services svcs).contains s := by
    intro s hs
    simpa using setup_mem svcs s hs
  unfold async_setup_services
  exact setup_fold_fixed INTEGRATION_SERVICES _
    (by simpa [async_setup_services] using h)

theorem setup_fold_nodup (l : List String) :
    ∀ svcs : List String, svcs.Nodup →
      (l.foldl (fun acc x => if acc.contains x then acc else acc ++ [x])
        svcs).Nodup := by
  induction l with
  | nil => intro _ h; exact h
  | cons x rest ih =>
    intro svcs h
    simp only [List.foldl_cons]
    by_cases hc : svcs.contains x
    · rw [if_pos hc]; exact ih svcs h
    · rw [if_neg hc]
      refine ih _ ?_
      have hx : x ∉ svcs := by simpa using hc
      rw [← List.concat_eq_append]
      exact List.Nodup.concat hx h

/-- Service setup preserves the no-duplicates property of the registry. -/
theorem setup_nodup (svcs : List String) (h : svcs.Nodup) :
    (async_setup_services svcs).Nodup :=
  setup_fold_nodup INTEGRATION_SERVICES svcs h

theorem unload_fold_not_mem (l : List String) :
    ∀ (svcs : List String) (s : String), s ∉ svcs →
      s ∉ l.foldl (fun acc x => if acc.contains x then acc.erase x else acc)
        svcs := by
  induction l with
  | nil => intro _ _ h; exact h
  | cons x rest ih =>
    intro svcs s h
    simp only [List.foldl_cons]
    by_cases hc : svcs.contains x
    · rw [if_pos hc]
      exact ih _ s (fun hm => h (List.mem_of_mem_erase hm))
    · rw [if_neg hc]; exact ih _ s h

theorem unload_fold_removes (l : List String) :
    ∀ svcs : List String, svcs.Nodup → ∀ s ∈ l,
      s ∉ l.foldl (fun acc x => if acc.contains x then acc.erase x else acc)
        svcs := by
  induction l with
  | nil => intro _ _ s hs; cases hs
  | cons x rest ih =>
    intro svcs h s hs
    simp only [List.foldl_cons]
    rcases List.mem_cons.mp hs with hx | hm
    · subst hx
      by_cases hc : svcs.contains s
      · rw [if_pos hc]
        exact unload_fold_not_mem rest _ s h.not_mem_erase
      · rw [if_neg hc]
        exact unload_fold_not_mem rest _ s (by simpa using hc)
    · by_cases hc : svcs.contains x
      · rw [if_pos hc]; exact ih _ (h.erase x) s hm
      · rw [if_neg hc]; exact ih _ h s hm

/-- After unloading, none of the seven services remains registered,
provided the registry held no duplicate names (Home Assistant's registry is
a dict, so it cannot). -/
theorem unload_removes (svcs : List String) (h : svcs.Nodup) (s : String)
    (hs : s ∈ INTEGRATION_SERVICES) : s ∉ async_unload_services svcs :=
  unload_fold_removes INTEGRATION_SERVICES svcs h s hs

/-! ## Supporting lemmas for the claims -/

theorem pyGT0_error (v : PyVal) (e : PyErr) (h : pyGT0 v = .error e) :
    e = .typeError := by
  cases v <;> simp [pyGT0] at h <;> exact h.symm

theorem pyNum_error (v : PyVal) (e : PyErr) (h : pyNum v = .error e) :
    e = .typeError := by
  cases v <;> simp [pyNum] at h <;> exact h.symm

theorem pyGT0_pyNum_pos (v : PyVal) (t : ℚ) (h1 : pyGT0 v = .ok true)
    (h2 : pyNum v = .ok t) : 0 < t := by
  cases v with
  | int n =>
    simp [pyGT0] at h1
    simp [pyNum] at h2
    subst h2
    exact_mod_cast h1
  | bool b =>
    cases b with
    | true =>
      simp [pyNum] at h2
      subst h2
      norm_num
    | false => simp [pyGT0] at h1
  | pyNone => simp [pyGT0] at h1
  | str s => simp [pyGT0] at h1
  | dict es => simp [pyGT0] at h1
  | list vs => simp [pyGT0] at h1

/-- The repairs health-check scan never raises `ZeroDivisionError`: it
divides only after `total > 0` has held. -/
theorem healthScan_no_div (st : StatusMap) (l : List (String × String)) :
    healthScan st l ≠ .error .zeroDivisionError := by
  induction l with
  | nil => simp [healthScan]
  | cons kv rest ih =>
    unfold healthScan
    by_cases hc : (containsKey st kv.1 && containsKey st kv.2) = true
    · rw [if_pos hc]
      cases h1 : lookupAssoc st kv.1 with
      | none => simp
      | some remaining =>
        cases h2 : lookupAssoc st kv.2 with
        | none => simp
        | some total =>
          simp only []
          cases hg : pyGT0 total with
          | error e =>
            have := pyGT0_error total e hg
            subst this
            simp
          | ok b =>
            cases b with
            | false => simpa using ih
            | true =>
              cases hr : pyNum remaining with
              | error e =>
                have := pyNum_error remaining e hr
                subst this
                simp
              | ok r =>
                cases ht : pyNum total with
                | error e =>
                  have := pyNum_error total e ht
                  subst this
                  simp
                | ok t =>
                  have hpos := pyGT0_pyNum_pos total t hg ht
                  simp only [if_neg hpos.ne']
                  by_cases hle : r / t * 100 ≤ 15
                  · simp [hle]
                  · simpa [hle] using ih
    · rw [if_neg hc]
      exact ih

/-! ## The claims -/

/-- C1 (counterexample): the claim says the cached status entry is
optimistically updated *before* the network write is issued and retained if
the write fails.  At the concrete input below — options mapping device
value "a" to label "Auto", empty cached status, a write that fails — the
code leaves the cache without the entry (so nothing was retained), and on a
successful write the trace shows the network write strictly before the
cache write. -/
theorem C1_counterexample :
    (async_select_option [("a", "Auto")] "mode" [] "Auto" .failure).status ≠
      setAssoc [] "mode" (.str "a") ∧
    (async_select_option [("a", "Auto")] "mode" [] "Auto" .success).events ≠
      [.cacheWrite "mode" "a", .netWrite "mode" "a"] := by
  constructor
  · have h : (async_select_option [("a", "Auto")] "mode" [] "Auto"
        .failure).status = [] := rfl
    rw [h]
    simp [setAssoc]
  · have h : (async_select_option [("a", "Auto")] "mode" [] "Auto"
        .success).events = [.netWrite "mode" "a", .cacheWrite "mode" "a"] :=
      rfl
    rw [h]
    simp

/-- C1 (amended): for every valid, non-empty option whose label resolves to
a device value, `async_select_option` issues the network write first; only
after a successful write does it update the cached status entry to the
option's device value, and a failing write propagates leaving the cache
unchanged. -/
theorem C1_write_then_cache (options : List (String × String))
    (kind : String) (status : StatusMap) (option : String)
    (kv : String × String) (hopt : ¬ option = "")
    (hfind : options.find? (fun p => p.2 = option) = some kv) :
    async_select_option options kind status option .success =
      ⟨setAssoc status kind (.str kv.1),
       [.netWrite kind kv.1, .cacheWrite kind kv.1], false⟩ ∧
    async_select_option options kind status option .failure =
      ⟨status, [.netWrite kind kv.1], true⟩ := by
  constructor
  · unfold async_select_option
    rw [if_neg hopt, hfind]
  · unfold async_select_option
    rw [if_neg hopt, hfind]

/-- Witness for C1: the amended statement at the concrete input of the
counterexample. -/
theorem C1_witness :
    (async_select_option [("a", "Auto")] "mode" [] "Auto" .success).status =
      [("mode", PyVal.str "a")] ∧
    (async_select_option [("a", "Auto")] "mode" [] "Auto" .failure).raised =
      true := by
  have h := C1_write_then_cache [("a", "Auto")] "mode" [] "Auto" ("a", "Auto")
    (by decide) (by decide)
  refine ⟨?_, ?_⟩
  · rw [h.1]
    rfl
  · rw [h.2]

/-- C2: a failed or timed-out first connect makes `async_setup_entry` raise
`ConfigEntryNotReady` with the per-entry registry unchanged (no
`ConfigEntryData` stored), and with a session established the function
never raises `ConfigEntryNotReady` — any later failure surfaces as a
different error. -/
theorem C2_first_connect_not_ready (env : SetupEnv) (entry : ConfigEntry)
    (entryId : String) (hassData : List (String × ConfigEntryData)) :
    (env.connect = .connectFailed →
      async_setup_entry env entry entryId hassData =
        .error (.configEntryNotReady, hassData)) ∧
    (env.connect = .connected →
      ∀ e hd, async_setup_entry env entry entryId hassData = .error (e, hd) →
        e ≠ .configEntryNotReady) := by
  obtain ⟨c, r, f⟩ := env
  constructor
  · intro h
    change c = ConnectOutcome.connectFailed at h
    subst h
    rfl
  · intro h e hd heq
    change c = ConnectOutcome.connected at h
    subst h
    obtain ⟨eh, em, en, ed, ds⟩ := entry
    cases ds with
    | some st => simp [async_setup_entry] at heq
    | none =>
      cases r with
      | true => simp [async_setup_entry] at heq
      | false =>
        simp [async_setup_entry] at heq
        rw [← heq.1]
        simp

/-- Witness for C2: at a failing connect the concrete result is the
not-ready error with nothing stored; at a succeeding connect whose refresh
fails, the propagated error is not `ConfigEntryNotReady`. -/
theorem C2_witness :
    async_setup_entry ⟨.connectFailed, true, []⟩
        ⟨"h1", "m1", "n1", "d1", none⟩ "e1" [] =
      .error (.configEntryNotReady, []) ∧
    SetupError.otherError ≠ SetupError.configEntryNotReady := by
  constructor
  · exact (C2_first_connect_not_ready ⟨.connectFailed, true, []⟩
      ⟨"h1", "m1", "n1", "d1", none⟩ "e1" []).1 rfl
  · exact (C2_first_connect_not_ready ⟨.connected, false, []⟩
      ⟨"h2", "m2", "n2", "d2", none⟩ "e2" []).2 rfl .otherError [] rfl

/-- C3: StatusCache merge is idempotent — for every cache state and every
delta, merging the same delta twice equals merging it once (merge is
right-biased union). -/
theorem C3_merge_idempotent (c d : StatusCache) :
    StatusCache.merge (StatusCache.merge c d) d = StatusCache.merge c d := by
  funext k
  unfold StatusCache.merge
  cases d k <;> rfl

/-- C4: the key set of the StatusCache never shrinks — over any sequence of
Coordinator operations (delta merges, control writes, reconnections), a key
once present stays present. -/
theorem C4_keys_never_shrink (ops : List CoordOp) (c : StatusCache)
    (k : String) (h : (c k).isSome) : ((applyOps c ops) k).isSome := by
  induction ops generalizing c with
  | nil => exact h
  | cons op rest ih => exact ih _ (applyOp_isSome c op k h)

/-- Witness for C4: a concrete cache holding "pwr" keeps it across a merge,
a control write and a reconnection. -/
theorem C4_witness :
    ((StatusCache.ofList [("pwr", PyVal.str "1")]) "pwr").isSome = true ∧
    ((applyOps (StatusCache.ofList [("pwr", PyVal.str "1")])
        [.mergeDelta [("om", PyVal.str "2"), ("pwr", PyVal.str "0")],
         .setControl "mode" (PyVal.str "M"), .reconnect]) "pwr").isSome =
      true := by
  constructor
  · rfl
  · exact C4_keys_never_shrink _ _ _ rfl

/-- C5: setup pre-populates from persistence exactly when possible — with a
persisted snapshot the Coordinator is constructed pre-populated and no
blocking first refresh happens (entry data unchanged); without one the
Coordinator starts empty, a blocking first refresh runs, and the fetched
status is written back into the entry's stored data. -/
theorem C5_setup_prepopulates (env : SetupEnv) (entry : ConfigEntry)
    (entryId : String) (hassData : List (String × ConfigEntryData))
    (hc : env.connect = .connected) :
    (∀ st, entry.data_status = some st →
      async_setup_entry env entry entryId hassData =
        .ok { entry := entry,
              stored := { coordinator := Coordinator.new (some st),
                          latest_status := st, clientPresent := true },
              firstRefreshPerformed := false,
              hassData := setAssoc hassData entryId
                { coordinator := Coordinator.new (some st),
                  latest_status := st, clientPresent := true } }) ∧
    (entry.data_status = none → env.refreshOk = true →
      async_setup_entry env entry entryId hassData =
        .ok { entry := { entry with data_status := some env.fetched },
              stored := { coordinator :=
                            Coordinator.firstRefresh (Coordinator.new none)
                              env.fetched,
                          latest_status := env.fetched,
                          clientPresent := true },
              firstRefreshPerformed := true,
              hassData := setAssoc hassData entryId
                { coordinator :=
                    Coordinator.firstRefresh (Coordinator.new none)
                      env.fetched,
                  latest_status := env.fetched,
                  clientPresent := true } }) := by
  obtain ⟨c, r, f⟩ := env
  change c = ConnectOutcome.connected at hc
  subst hc
  obtain ⟨eh, em, en, ed, ds⟩ := entry
  constructor
  · intro st hst
    change ds = some st at hst
    subst hst
    rfl
  · intro hds hr
    change ds = none at hds
    subst hds
    change r = true at hr
    subst hr
    rfl

/-- Witness for C5: both branches at concrete inputs — an entry with a
persisted snapshot is pre-populated without refresh; one without gets a
refresh and a write-back of the fetched status. -/
theorem C5_witness :
    async_setup_entry ⟨.connected, true, [("om", PyVal.str "1")]⟩
        ⟨"h1", "m1", "n1", "d1", some [("pwr", PyVal.str "0")]⟩ "e1" [] =
      .ok { entry := ⟨"h1", "m1", "n1", "d1", some [("pwr", PyVal.str "0")]⟩,
            stored := { coordinator :=
                          Coordinator.new (some [("pwr", PyVal.str "0")]),
                        latest_status := [("pwr", PyVal.str "0")],
                        clientPresent := true },
            firstRefreshPerformed := false,
            hassData := setAssoc [] "e1"
              { coordinator :=
                  Coordinator.new (some [("pwr", PyVal.str "0")]),
                latest_status := [("pwr", PyVal.str "0")],
                clientPresent := true } } ∧
    async_setup_entry ⟨.connected, true, [("om", PyVal.str "1")]⟩
        ⟨"h2", "m2", "n2", "d2", none⟩ "e2" [] =
      .ok { entry := ⟨"h2", "m2", "n2", "d2", some [("om", PyVal.str "1")]⟩,
            stored := { coordinator :=
                          Coordinator.firstRefresh (Coordinator.new none)
                            [("om", PyVal.str "1")],
                        latest_status := [("om", PyVal.str "1")],
                        clientPresent := true },
            firstRefreshPerformed := true,
            hassData := setAssoc [] "e2"
              { coordinator :=
                  Coordinator.firstRefresh (Coordinator.new none)
                    [("om", PyVal.str "1")],
                latest_status := [("om", PyVal.str "1")],
                clientPresent := true } } := by
  constructor
  · exact (C5_setup_prepopulates ⟨.connected, true, [("om", PyVal.str "1")]⟩
      ⟨"h1", "m1", "n1", "d1", some [("pwr", PyVal.str "0")]⟩ "e1" [] rfl).1
      [("pwr", PyVal.str "0")] rfl
  · exact (C5_setup_prepopulates ⟨.connected, true, [("om", PyVal.str "1")]⟩
      ⟨"h2", "m2", "n2", "d2", none⟩ "e2" [] rfl).2 rfl rfl

/-- C6: unloading a config entry awaits the Coordinator's shutdown exactly
once, removes the entry's `ConfigEntryData` from the domain registry,
unregisters the seven services exactly when the unloaded entry was the last
one (leaving them registered otherwise), and returns `True`. -/
theorem C6_unload_entry (st : HAState) (entryId : String)
    (ced : ConfigEntryData)
    (hmem : lookupAssoc st.domainData entryId = some ced)
    (hnodup : st.services.Nodup) :
    ∃ r, async_unload_entry st entryId = some r ∧
      r.returnValue = true ∧
      r.shutdownCalls = [entryId] ∧
      lookupAssoc r.state.domainData entryId = none ∧
      (∀ k, k ≠ entryId →
        lookupAssoc r.state.domainData k = lookupAssoc st.domainData k) ∧
      (r.state.domainData = [] →
        ∀ s ∈ INTEGRATION_SERVICES, s ∉ r.state.services) ∧
      (r.state.domainData ≠ [] → r.state.services = st.services) := by
  refine ⟨{ state :=
              { domainData := removeAssoc st.domainData entryId,
                services :=
                  if (removeAssoc st.domainData entryId).isEmpty then
                    async_unload_services st.services
                  else st.services },
            returnValue := true, shutdownCalls := [entryId] },
    ?_, rfl, rfl, lookupAssoc_removeAssoc_self _ _,
    fun k hk => lookupAssoc_removeAssoc_ne _ _ _ hk, ?_, ?_⟩
  · unfold async_unload_entry
    rw [hmem]
  · intro hempty s hs
    have hE : (removeAssoc st.domainData entryId).isEmpty = true := by
      have h2 : removeAssoc st.domainData entryId = [] := hempty
      rw [h2]
      rfl
    rw [if_pos hE]
    exact unload_removes st.services hnodup s hs
  · intro hne
    have hne2 : removeAssoc st.domainData entryId ≠ [] := hne
    have hE : ¬ (removeAssoc st.domainData entryId).isEmpty = true := by
      cases h : removeAssoc st.domainData entryId with
      | nil => exact absurd h hne2
      | cons a l => simp
    rw [if_neg hE]

/-- Witness for C6: unloading the only entry of a one-entry registry
succeeds. -/
theorem C6_witness :
    (async_unload_entry
        ⟨[("e1", { coordinator := Coordinator.new none, latest_status := [],
                   clientPresent := true })],
         ["filter_reset", "other_service"]⟩ "e1").isSome = true := by
  obtain ⟨r, hr, -, -, -, -, -, -⟩ := C6_unload_entry
    ⟨[("e1", { coordinator := Coordinator.new none, latest_status := [],
               clientPresent := true })],
     ["filter_reset", "other_service"]⟩ "e1"
    { coordinator := Coordinator.new none, latest_status := [],
      clientPresent := true } rfl (by decide)
  rw [hr]
  rfl

/-- C7: diagnostics collection is read-only — the state threaded through
`async_get_config_entry_diagnostics` (Coordinator runtime, status cache,
stored `ConfigEntryData`, registries) is returned unchanged; the helpers
only read connection-present, listener-count and task-liveness
information. -/
theorem C7_diagnostics_readonly (s : DiagState) :
    (async_get_config_entry_diagnostics s).2 = s := rfl

/-- C8: `PhilipsFilterSensor.native_value` is well-defined only when the
filter's total capacity is nonzero — with the total key present and zero
the unguarded division raises `ZeroDivisionError`; with a nonzero total it
returns the rounded percentage; and the repairs health check, which divides
only after checking `total > 0`, can never raise `ZeroDivisionError`. -/
theorem C8_division_guard (st : StatusMap) (valueKey totalKey : String)
    (v t : Int) (hv : lookupAssoc st valueKey = some (.int v))
    (ht : lookupAssoc st totalKey = some (.int t)) :
    (t ≠ 0 → filterNativeValue st valueKey totalKey =
      .ok (.int (round ((100 * v : ℚ) / (t : ℚ))))) ∧
    (t = 0 → filterNativeValue st valueKey totalKey =
      .error .zeroDivisionError) ∧
    ∀ st' : StatusMap, healthFilterWarning st' ≠ .error .zeroDivisionError := by
  have h1 : getIntItem st valueKey = .ok v := by simp [getIntItem, hv]
  have h2 : getIntItem st totalKey = .ok t := by simp [getIntItem, ht]
  have h3 : containsKey st totalKey = true := by simp [containsKey, ht]
  refine ⟨?_, ?_, fun st' => healthScan_no_div st' healthFilterKeys⟩
  · intro hne
    simp [filterNativeValue, h3, filterPercentage, h1, h2, hne]
  · intro hz
    subst hz
    simp [filterNativeValue, h3, filterPercentage, h1, h2]

/-- Witness for C8: a status whose total-capacity field is present and zero
makes the sensor raise `ZeroDivisionError` while the health check on the
same status does not; with value 12 of total 400 the sensor reads 3 percent. -/
theorem C8_witness :
    filterNativeValue [("fltsts0", PyVal.int 10), ("flttotal0", PyVal.int 0)]
        "fltsts0" "flttotal0" = .error .zeroDivisionError ∧
    healthFilterWarning
        [("fltsts0", PyVal.int 10), ("flttotal0", PyVal.int 0)] ≠
      .error .zeroDivisionError ∧
    filterNativeValue
        [("fltsts0", PyVal.int 12), ("flttotal0", PyVal.int 400)]
        "fltsts0" "flttotal0" = .ok (.int 3) := by
  refine ⟨?_, ?_, ?_⟩
  · exact (C8_division_guard
      [("fltsts0", PyVal.int 10), ("flttotal0", PyVal.int 0)]
      "fltsts0" "flttotal0" 10 0 rfl rfl).2.1 rfl
  · exact (C8_division_guard
      [("fltsts0", PyVal.int 10), ("flttotal0", PyVal.int 0)]
      "fltsts0" "flttotal0" 10 0 rfl rfl).2.2 _
  · have h := (C8_division_guard
      [("fltsts0", PyVal.int 12), ("flttotal0", PyVal.int 400)]
      "fltsts0" "flttotal0" 12 400 rfl rfl).1 (by norm_num)
    rw [h]
    norm_num

/-- C9 (counterexample): the claim says the diagnostics output is
independent of the sensitive values in `TO_REDACT`.  Two states identical
except for the device host produce different outputs: the raw host survives
redaction under the key "device_host" (which is not in `TO_REDACT`). -/
theorem C9_counterexample :
    (async_get_config_entry_diagnostics
        (diagStateWithHost "192.168.1.10")).1 ≠
      (async_get_config_entry_diagnostics
        (diagStateWithHost "192.168.1.11")).1 := by
  intro h
  have h2 := congrArg
    (fun r => diagSection r "integration_info" "device_host") h
  have e1 : diagSection
      (async_get_config_entry_diagnostics
        (diagStateWithHost "192.168.1.10")).1
      "integration_info" "device_host" = some (.str "192.168.1.10") := rfl
  have e2 : diagSection
      (async_get_config_entry_diagnostics
        (diagStateWithHost "192.168.1.11")).1
      "integration_info" "device_host" = some (.str "192.168.1.11") := rfl
  simp only [] at h2
  rw [e1, e2] at h2
  have h3 := Option.some.inj h2
  rw [PyVal.str.injEq] at h3
  exact absurd h3 (by decide)

/-- C9 (amended): every dictionary returned by
`async_get_config_entry_diagnostics` has, at every nesting level, the
redaction marker (or a kept `None`/empty string) under every key of
`TO_REDACT`; the output is however not independent of the sensitive values,
which also appear under keys outside `TO_REDACT` such as "device_host". -/
theorem C9_redacted_keys (s : DiagState) (v : PyVal)
    (h : (async_get_config_entry_diagnostics s).1 = .ok v) :
    redactedOk TO_REDACT v = true := by
  have key : (async_get_config_entry_diagnostics s).1 =
      match _get_connectivity_info s with
      | .error e => .error e
      | .ok conn => .ok (redact TO_REDACT (.dict [
          ("system_info", _get_system_info s),
          ("integration_info", _get_integration_info s),
          ("device_info", _get_device_info s),
          ("connectivity_info", conn),
          ("performance_metrics", _get_performance_metrics s),
          ("entity_info", _get_entity_info s),
          ("configuration_data", _get_configuration_data s),
          ("error_tracking", _get_error_tracking s),
          ("device_status", _get_device_status s)])) := rfl
  rw [key] at h
  cases hc : _get_connectivity_info s with
  | error e =>
    rw [hc] at h
    cases h
  | ok conn =>
    rw [hc] at h
    simp only [Except.ok.injEq] at h
    subst h
    exact redact_redactedOk TO_REDACT _

/-- Witness for C9: the concrete diagnostics output satisfies the
redaction-soundness predicate. -/
theorem C9_witness : redactedOk TO_REDACT diagSampleValue = true :=
  C9_redacted_keys (diagStateWithHost "192.168.1.10") diagSampleValue rfl

/-- C10: service registration is idempotent and round-trips — each of the
seven services is registered only when absent (running setup twice equals
running it once), and setup followed by unload leaves none of the seven
registered (the registry, a dict keyed by service name, holds no
duplicates). -/
theorem C10_services_idempotent (svcs : List String) (h : svcs.Nodup) :
    async_setup_services (async_setup_services svcs) =
      async_setup_services svcs ∧
    (∀ s ∈ INTEGRATION_SERVICES, s ∈ async_setup_services svcs) ∧
    ∀ s ∈ INTEGRATION_SERVICES,
      s ∉ async_unload_services (async_setup_services svcs) := by
  refine ⟨setup_setup svcs, fun s hs => setup_mem svcs s hs, fun s hs => ?_⟩
  exact unload_removes _ (setup_nodup svcs h) s hs

/-- Witness for C10: from a registry holding one unrelated service, setup
registers filter_reset and setup-then-unload removes it again. -/
theorem C10_witness :
    "filter_reset" ∈ async_setup_services ["other_service"] ∧
    "filter_reset" ∉
      async_unload_services (async_setup_services ["other_service"]) := by
  have h := C10_services_idempotent ["other_service"] (by simp)
  exact ⟨h.2.1 "filter_reset" (by decide), h.2.2 "filter_reset" (by decide)⟩
